import Mathlib

/-
Verification of the connection lifecycle and logging core of the
buttplug-js client slice (src/client/WebsocketClient.ts and
src/core/Logging.ts), via a shallow embedding of both files.
-/

namespace Spec2Proof

/-! ## Leveled log sink (src/core/Logging.ts) -/

/-- The `LogLevel` enum of Logging.ts, in declaration order, so that the
numeric value of each constructor matches the TypeScript enum value. -/
inductive LogLevel
  | Off
  | Fatal
  | Error
  | Warn
  | Info
  | Debug
  | Trace
deriving DecidableEq, Repr

/-- Numeric value of a `LogLevel`, as assigned by the TypeScript enum
(`Off = 0` through `Trace = 6`). Comparisons in `AddLogMessage` are on
these numbers. -/
def LogLevel.toNat : LogLevel → Nat
  | .Off => 0
  | .Fatal => 1
  | .Error => 2
  | .Warn => 3
  | .Info => 4
  | .Debug => 5
  | .Trace => 6

/-- The reverse enum lookup `LogLevel[level]` used by
`LogMessage.FormattedMessage` in the source: the name of the level. -/
def LogLevel.levelName : LogLevel → String
  | .Off => "Off"
  | .Fatal => "Fatal"
  | .Error => "Error"
  | .Warn => "Warn"
  | .Info => "Info"
  | .Debug => "Debug"
  | .Trace => "Trace"

/-- The `LogMessage` value of Logging.ts: timestamp, text and level. The
constructor in the source captures the wall clock; here the timestamp is
passed in explicitly, since wall-clock time is an external input. -/
structure LogMessage where
  timestamp : String
  logMessage : String
  logLevel : LogLevel
deriving DecidableEq, Repr

/-- The getter `FormattedMessage` from the source:
the string `LogLevel[this.logLevel] : timestamp : message`. -/
def LogMessage.FormattedMessage (m : LogMessage) : String :=
  m.logLevel.levelName ++ " : " ++ m.timestamp ++ " : " ++ m.logMessage

/-- The mutable configuration of `ButtplugLogger`: whether console
logging is on, and the two independent level thresholds. -/
structure ButtplugLogger where
  logToConsole : Bool
  maximumConsoleLogLevel : LogLevel
  maximumLogLevel : LogLevel
deriving DecidableEq, Repr

/-- Observable outcome of one `AddLogMessage` call: whether a
`LogMessage` record was constructed, the lines printed to the console,
and the `log` events emitted to subscribers. -/
structure AddLogResult where
  recordConstructed : Bool
  consoleLines : List String
  logEvents : List LogMessage
deriving DecidableEq, Repr

/-- The method `AddLogMessage` from Logging.ts: return early when the
level is above both thresholds, otherwise construct the record, print it
when console logging is on and the level passes the console threshold,
and emit a `log` event when the level passes the global threshold. -/
def AddLogMessage (lg : ButtplugLogger) (ts aMsg : String) (aLevel : LogLevel) :
    AddLogResult :=
  if aLevel.toNat > lg.maximumLogLevel.toNat ∧
      aLevel.toNat > lg.maximumConsoleLogLevel.toNat then
    ⟨false, [], []⟩
  else
    let msg : LogMessage := ⟨ts, aMsg, aLevel⟩
    ⟨true,
     if lg.logToConsole = true ∧ aLevel.toNat ≤ lg.maximumConsoleLogLevel.toNat then
       [msg.FormattedMessage]
     else [],
     if aLevel.toNat ≤ lg.maximumLogLevel.toNat then [msg] else []⟩

/-! ## Connection transport (src/client/WebsocketClient.ts) -/

/-- A typed protocol message as seen by the transport. The message
catalog is an external collaborator; the transport only ever calls
`toJSON` on a message (in `Send`), so a message is modelled by its wire
text `toJSON`. -/
structure ButtplugMessage where
  toJSON : String
deriving DecidableEq, Repr

/-- The event listeners attached to the WebSocket channel created by
`Connect`: the message listener routing frames to
`ParseIncomingMessage`, the provisional close listener
`conErrorCallback` that fails the pending connect, and the close
listener bound to `Disconnect` after a successful open. -/
structure ChannelListeners where
  message : Bool
  closeConError : Bool
  closeDisconnect : Bool
deriving DecidableEq, Repr

/-- The state of a `ButtplugWebsocketClient`: the stored channel handle
`_ws` (a channel identifier, or `none` for `undefined`), together with
the listeners attached to the channel most recently created by
`Connect`. -/
structure WsState where
  ws : Option Nat
  listeners : ChannelListeners
deriving DecidableEq, Repr

/-- The `Connected` getter of WebsocketClient.ts:
`this._ws !== undefined`. -/
def Connected (s : WsState) : Bool :=
  s.ws.isSome

/-- Observable side effects of the transport operations: the external
hook calls, channel writes and closes, the `close` event emitted to
consumers, resolution of the pending `Connect` promise, and the
decode-and-dispatch outcomes of inbound frame handling. -/
inductive Effect
  | shutdownCall
  | channelClose (c : Nat)
  | closeEmit
  | channelSend (c : Nat) (data : String)
  | handshakeStart
  | resolveOk
  | resolveErr
  | onMessages (msgs : List ButtplugMessage)
  | errorNotify (e : String)
deriving DecidableEq, Repr

/-- Listeners on the channel as set up by the body of `Connect` before
the open event fires: only `conErrorCallback` is attached, on close. -/
def openPhaseListeners : ChannelListeners :=
  ⟨false, true, false⟩

/-- The open-event handler inside `Connect` of WebsocketClient.ts,
applied to the fresh channel `c` and the result `hs` of the
asynchronous handshake hook `InitializeConnection`. Following the
statement order of the source: store the channel in `_ws`, attach the
message listener, remove the provisional close listener, attach
`Disconnect` as the close listener, then await the handshake and reject
or resolve the pending promise. Each effect in the returned trace is
paired with the transport state at the moment it happens. -/
def ConnectOpen (c : Nat) (hs : Bool) : WsState × List (Effect × WsState) :=
  let s1 : WsState := ⟨some c, openPhaseListeners⟩
  let s2 : WsState := { s1 with listeners := { s1.listeners with message := true } }
  let s3 : WsState := { s2 with listeners := { s2.listeners with closeConError := false } }
  let s4 : WsState := { s3 with listeners := { s3.listeners with closeDisconnect := true } }
  if hs then
    (s4, [(Effect.handshakeStart, s4), (Effect.resolveOk, s4)])
  else
    (s4, [(Effect.handshakeStart, s4), (Effect.resolveErr, s4)])

/-- The method `Disconnect` from WebsocketClient.ts: a no-op unless connected;
otherwise call the `ShutdownConnection` hook, close the channel, clear
`_ws`, and emit the `close` event, in that order. Each effect in the
returned trace is paired with the transport state at the moment it
happens; the remote-close listener installed by `ConnectOpen` invokes
this same function. -/
def Disconnect (s : WsState) : WsState × List (Effect × WsState) :=
  match s.ws with
  | none => (s, [])
  | some c =>
      let s1 : WsState := { s with ws := none }
      (s1, [(Effect.shutdownCall, s), (Effect.channelClose c, s), (Effect.closeEmit, s1)])

/-- The method `Send` from WebsocketClient.ts: throw the usage error
`ButtplugClient not connected` when not connected, otherwise write the
single frame `[ ... ]` wrapping the message wire text to the channel. -/
def Send (s : WsState) (aMsg : ButtplugMessage) : Except String (List Effect) :=
  match s.ws with
  | none => Except.error "ButtplugClient not connected"
  | some c => Except.ok [Effect.channelSend c ("[" ++ aMsg.toJSON ++ "]")]

/-- Modelled from the spec: the text path of `ParseIncomingMessage`. In
the source the frame text goes through `FromJSON` and the resulting
messages through `ParseMessages`; both live in files of this repository
outside src/ (core/Messages.ts and client/Client.ts), so they are
modelled from the spec as the external codec hook
`decode(text) -> sequence of messages`, fallible with a decode-kind
error, and the consumer dispatch hook `onMessages`, called once per
frame with the decoded messages in order; a decode failure is surfaced
as an error-kind notification distinct from a `close` event and does
not change the transport state. -/
def ParseIncomingMessage (decode : String → Except String (List ButtplugMessage))
    (s : WsState) (data : String) : WsState × List Effect :=
  match decode data with
  | Except.error e => (s, [Effect.errorNotify e])
  | Except.ok msgs => (s, [Effect.onMessages msgs])

/-- Inbound frames are handled one after the other in delivery order,
each through `ParseIncomingMessage`. -/
def ProcessFrames (decode : String → Except String (List ButtplugMessage))
    (s : WsState) (frames : List String) : WsState × List Effect :=
  match frames with
  | [] => (s, [])
  | f :: rest =>
      let r1 := ParseIncomingMessage decode s f
      let r2 := ProcessFrames decode r1.1 rest
      (r2.1, r1.2 ++ r2.2)

/-! ## Claims about the connection transport -/

/-- C1, counterexample: in a Connect call whose handshake succeeds, the
handshake hook already runs with `Connected = true`, because the open
handler stores the channel in `_ws` before awaiting
`InitializeConnection`; so `Connected` is not false at every point
before the handshake completes. -/
theorem handshake_runs_with_connected_true :
    (ConnectOpen 0 true).2.map (fun p => (p.1, Connected p.2)) =
      [(Effect.handshakeStart, true), (Effect.resolveOk, true)] :=
  rfl

/-- C1, amended: for every Connect call, `Connected` is already true
when the handshake hook is invoked (the open handler stores the channel
first), and the pending operation resolves, successfully exactly when
the handshake succeeded, only after the handshake, still with
`Connected` true. -/
theorem connected_set_before_handshake (c : Nat) (hs : Bool) :
    (ConnectOpen c hs).2.map (fun p => (p.1, Connected p.2)) =
      [(Effect.handshakeStart, true),
       ((if hs then Effect.resolveOk else Effect.resolveErr), true)] := by
  cases hs <;> rfl

/-- C2, counterexample: when the channel opens and the handshake hook
fails, the operation is rejected but `Connected` stays true and both the
message listener and the `Disconnect` close listener remain attached:
partial state survives. -/
theorem handshake_failure_leaves_partial_state :
    Connected (ConnectOpen 0 false).1 = true ∧
    (ConnectOpen 0 false).1.listeners.message = true ∧
    (ConnectOpen 0 false).1.listeners.closeDisconnect = true ∧
    (ConnectOpen 0 false).2.map Prod.fst = [Effect.handshakeStart, Effect.resolveErr] :=
  ⟨rfl, rfl, rfl, rfl⟩

/-- C2, amended: for every Connect call in which the channel opens but
the handshake hook fails, the operation resolves as failed and never as
success, but the `Connected` flag remains true and the message and close
observers remain attached to the channel. -/
theorem handshake_failure_keeps_listeners (c : Nat) :
    (ConnectOpen c false).2.map Prod.fst = [Effect.handshakeStart, Effect.resolveErr] ∧
    Connected (ConnectOpen c false).1 = true ∧
    (ConnectOpen c false).1.listeners.message = true ∧
    (ConnectOpen c false).1.listeners.closeDisconnect = true :=
  ⟨rfl, rfl, rfl, rfl⟩

/-- C3: `Disconnect` is idempotent. From a not-connected state it is a
no-op, and running it twice in a row from a connected state (the second
run standing equally for the remote-close listener, which invokes this
same `Disconnect`) performs exactly one `ShutdownConnection` call and
emits exactly one `close` event. -/
theorem disconnect_idempotent (s : WsState) :
    (s.ws = none → Disconnect s = (s, [])) ∧
    (∀ c, s.ws = some c →
      ((Disconnect s).2 ++ (Disconnect (Disconnect s).1).2).map Prod.fst =
        [Effect.shutdownCall, Effect.channelClose c, Effect.closeEmit] ∧
      (((Disconnect s).2 ++ (Disconnect (Disconnect s).1).2).map Prod.fst).count
          Effect.shutdownCall = 1 ∧
      (((Disconnect s).2 ++ (Disconnect (Disconnect s).1).2).map Prod.fst).count
          Effect.closeEmit = 1) := by
  constructor
  · intro h
    simp [Disconnect, h]
  · intro c h
    refine ⟨by simp [Disconnect, h], ?_, ?_⟩ <;>
      simp [Disconnect, h, List.count_cons, List.count_nil]

/-- Witness for C3 at a connected and at a disconnected state. -/
theorem disconnect_idempotent_witness :
    Disconnect ⟨none, ⟨false, false, false⟩⟩ = (⟨none, ⟨false, false, false⟩⟩, []) ∧
    (((Disconnect ⟨some 7, ⟨true, false, true⟩⟩).2 ++
        (Disconnect (Disconnect ⟨some 7, ⟨true, false, true⟩⟩).1).2).map Prod.fst).count
      Effect.shutdownCall = 1 :=
  ⟨(disconnect_idempotent ⟨none, ⟨false, false, false⟩⟩).1 rfl,
   ((disconnect_idempotent ⟨some 7, ⟨true, false, true⟩⟩).2 7 rfl).2.1⟩

/-- C4: `Send` on a not-connected transport fails synchronously with the
usage error and produces no channel write at all; on a connected
transport it never produces that error. -/
theorem send_requires_connected (s : WsState) (m : ButtplugMessage) :
    (Connected s = false → Send s m = Except.error "ButtplugClient not connected") ∧
    (Connected s = true → ∀ e, Send s m ≠ Except.error e) := by
  cases h : s.ws <;> simp [Connected, Send, h]

/-- Witness for C4 at a disconnected and at a connected state. -/
theorem send_requires_connected_witness :
    Send ⟨none, ⟨false, false, false⟩⟩ ⟨"m"⟩ =
      Except.error "ButtplugClient not connected" ∧
    Send ⟨some 3, ⟨true, false, true⟩⟩ ⟨"m"⟩ ≠ Except.error "x" :=
  ⟨(send_requires_connected ⟨none, ⟨false, false, false⟩⟩ ⟨"m"⟩).1 rfl,
   (send_requires_connected ⟨some 3, ⟨true, false, true⟩⟩ ⟨"m"⟩).2 rfl "x"⟩

/-- C9: while connected, `Send` performs exactly one channel write,
whose payload is exactly the bracket framing of the encoded message. -/
theorem send_writes_single_framed_message (s : WsState) (c : Nat)
    (m : ButtplugMessage) (h : s.ws = some c) :
    Send s m = Except.ok [Effect.channelSend c ("[" ++ m.toJSON ++ "]")] := by
  simp [Send, h]

/-- Witness for C9 at a concrete connected state and message. -/
theorem send_writes_single_framed_message_witness :
    Send ⟨some 2, ⟨true, false, true⟩⟩ ⟨"msg"⟩ =
      Except.ok [Effect.channelSend 2 "[msg]"] :=
  send_writes_single_framed_message ⟨some 2, ⟨true, false, true⟩⟩ 2 ⟨"msg"⟩ rfl

/-- C10: the `Connected` flag is true exactly when a channel handle is
stored in `_ws`; `Disconnect` clears the stored handle before emitting
the `close` event, so every `close` emission in its trace happens at a
state where `Connected` is already false, and after `Disconnect`
returns from any state the transport is not connected. -/
theorem connected_iff_channel_stored (s : WsState) :
    Connected s = s.ws.isSome ∧
    Connected (Disconnect s).1 = false ∧
    (∀ p ∈ (Disconnect s).2, p.1 = Effect.closeEmit → Connected p.2 = false) := by
  refine ⟨rfl, ?_, ?_⟩ <;> cases h : s.ws <;> simp [Disconnect, Connected, h]

/-- Witness for C10: the close emission of a concrete `Disconnect` run
happens at a state that is not connected. -/
theorem connected_iff_channel_stored_witness :
    Connected ⟨none, ⟨true, false, true⟩⟩ = false :=
  (connected_iff_channel_stored ⟨some 5, ⟨true, false, true⟩⟩).2.2
    (Effect.closeEmit, ⟨none, ⟨true, false, true⟩⟩) (by decide) rfl

/-- C7: a frame whose decode fails yields an error-kind notification,
which is a different effect from a `close` event; no `close` event is
emitted, the transport state (hence `Connected`) is unchanged, and a
subsequent valid frame is still decoded and dispatched to the
consumer. -/
theorem decode_failure_keeps_session
    (decode : String → Except String (List ButtplugMessage)) (s : WsState)
    (bad good e : String) (msgs : List ButtplugMessage)
    (hbad : decode bad = Except.error e) (hgood : decode good = Except.ok msgs) :
    ProcessFrames decode s [bad, good] =
      (s, [Effect.errorNotify e, Effect.onMessages msgs]) ∧
    Connected (ProcessFrames decode s [bad, good]).1 = Connected s ∧
    Effect.closeEmit ∉ (ProcessFrames decode s [bad, good]).2 ∧
    Effect.errorNotify e ≠ Effect.closeEmit := by
  simp [ProcessFrames, ParseIncomingMessage, hbad, hgood]

/-- Decoder used to witness C7: one parseable frame, all others
malformed. -/
def decodeWitnessA : String → Except String (List ButtplugMessage) :=
  fun t => if t = "good" then Except.ok [⟨"a"⟩, ⟨"b"⟩] else Except.error "decode failure"

/-- Witness for C7 on a concrete decoder and frames. -/
theorem decode_failure_keeps_session_witness :
    ProcessFrames decodeWitnessA ⟨some 1, ⟨true, false, true⟩⟩ ["bad", "good"] =
      (⟨some 1, ⟨true, false, true⟩⟩,
       [Effect.errorNotify "decode failure", Effect.onMessages [⟨"a"⟩, ⟨"b"⟩]]) :=
  (decode_failure_keeps_session decodeWitnessA ⟨some 1, ⟨true, false, true⟩⟩
    "bad" "good" "decode failure" [⟨"a"⟩, ⟨"b"⟩] rfl rfl).1

/-- C8: a text frame that decodes to a sequence of messages causes
exactly one consumer dispatch, carrying the decoded messages in their
original order. -/
theorem frame_dispatched_once_in_order
    (decode : String → Except String (List ButtplugMessage)) (s : WsState)
    (f : String) (msgs : List ButtplugMessage) (h : decode f = Except.ok msgs) :
    ParseIncomingMessage decode s f = (s, [Effect.onMessages msgs]) := by
  simp [ParseIncomingMessage, h]

/-- Decoder used to witness C8: one frame decoding to two messages. -/
def decodeWitnessB : String → Except String (List ButtplugMessage) :=
  fun t => if t = "frame" then Except.ok [⟨"m1"⟩, ⟨"m2"⟩] else Except.error "decode failure"

/-- Witness for C8 on a frame decoding to two messages. -/
theorem frame_dispatched_once_in_order_witness :
    ParseIncomingMessage decodeWitnessB ⟨some 1, ⟨true, false, true⟩⟩ "frame" =
      (⟨some 1, ⟨true, false, true⟩⟩, [Effect.onMessages [⟨"m1"⟩, ⟨"m2"⟩]]) :=
  frame_dispatched_once_in_order decodeWitnessB ⟨some 1, ⟨true, false, true⟩⟩
    "frame" [⟨"m1"⟩, ⟨"m2"⟩] rfl

/-! ## Claims about the log sink -/

/-- C5: a log call prints a console line iff console output is enabled
and the level passes the console threshold; it emits a `log` event iff
the level passes the global threshold; the two filters are independent;
and a record is constructed exactly when the level passes at least one
of the two thresholds, so when neither threshold admits the level no
record is constructed and no event fires. -/
theorem log_filters_independent (lg : ButtplugLogger) (ts text : String)
    (L : LogLevel) :
    ((AddLogMessage lg ts text L).consoleLines ≠ [] ↔
      lg.logToConsole = true ∧ L.toNat ≤ lg.maximumConsoleLogLevel.toNat) ∧
    ((AddLogMessage lg ts text L).logEvents ≠ [] ↔
      L.toNat ≤ lg.maximumLogLevel.toNat) ∧
    ((AddLogMessage lg ts text L).recordConstructed = true ↔
      (L.toNat ≤ lg.maximumLogLevel.toNat ∨
        L.toNat ≤ lg.maximumConsoleLogLevel.toNat)) := by
  by_cases h1 : L.toNat ≤ lg.maximumLogLevel.toNat <;>
  by_cases h2 : L.toNat ≤ lg.maximumConsoleLogLevel.toNat <;>
  by_cases h3 : lg.logToConsole = true <;>
  simp [AddLogMessage, ← Nat.not_le, h1, h2, h3]

/-- Witness for C5 with mismatched thresholds, console at Info and
events at Trace: a Trace-level call emits an event but prints no
console line. -/
theorem log_filters_independent_witness :
    (AddLogMessage ⟨true, LogLevel.Info, LogLevel.Trace⟩ "0:0:0" "m"
        LogLevel.Trace).logEvents ≠ [] ∧
    (AddLogMessage ⟨true, LogLevel.Info, LogLevel.Trace⟩ "0:0:0" "m"
        LogLevel.Trace).consoleLines = [] := by
  constructor
  · exact (log_filters_independent ⟨true, LogLevel.Info, LogLevel.Trace⟩
      "0:0:0" "m" LogLevel.Trace).2.1.mpr (by decide)
  · by_contra h
    have hc := (log_filters_independent ⟨true, LogLevel.Info, LogLevel.Trace⟩
      "0:0:0" "m" LogLevel.Trace).1.mp h
    exact absurd hc.2 (by decide)

/-- C6, counterexample: a message logged at level `Off` itself passes an
`Off` threshold, since the comparison in `AddLogMessage` is
`level <= threshold` and `Off <= Off`; so with both thresholds `Off`
and console logging on, a level-`Off` call still emits a `log` event
and prints a console line. -/
theorem off_level_passes_off_threshold :
    (AddLogMessage ⟨true, LogLevel.Off, LogLevel.Off⟩ "0:0:0" "m"
        LogLevel.Off).logEvents = [⟨"0:0:0", "m", LogLevel.Off⟩] ∧
    (AddLogMessage ⟨true, LogLevel.Off, LogLevel.Off⟩ "0:0:0" "m"
        LogLevel.Off).consoleLines = ["Off : 0:0:0 : m"] := by
  constructor <;> rfl

/-- C6, amended: a threshold set to `Off` admits no message of any of
the actual logging severities, that is any level other than `Off`
itself: with the global threshold `Off` no `log` event is emitted, and
with the console threshold `Off` no console line is printed. Level
`Off` is never used by the public logging methods Fatal through
Trace. -/
theorem off_threshold_admits_nothing (lg : ButtplugLogger) (ts text : String)
    (L : LogLevel) (h : L ≠ LogLevel.Off) :
    (lg.maximumLogLevel = LogLevel.Off →
      (AddLogMessage lg ts text L).logEvents = []) ∧
    (lg.maximumConsoleLogLevel = LogLevel.Off →
      (AddLogMessage lg ts text L).consoleLines = []) := by
  constructor <;> intro hoff <;> cases L <;>
    first
      | exact absurd rfl h
      | (simp [AddLogMessage, hoff, LogLevel.toNat]; split_ifs <;> simp)

/-- Witness for C6 as amended: a Fatal-level call against `Off`
thresholds produces no event and no console line. -/
theorem off_threshold_admits_nothing_witness :
    (AddLogMessage ⟨true, LogLevel.Off, LogLevel.Off⟩ "0:0:0" "m"
        LogLevel.Fatal).logEvents = [] ∧
    (AddLogMessage ⟨true, LogLevel.Off, LogLevel.Off⟩ "0:0:0" "m"
        LogLevel.Fatal).consoleLines = [] :=
  ⟨(off_threshold_admits_nothing ⟨true, LogLevel.Off, LogLevel.Off⟩ "0:0:0" "m"
      LogLevel.Fatal (by decide)).1 rfl,
   (off_threshold_admits_nothing ⟨true, LogLevel.Off, LogLevel.Off⟩ "0:0:0" "m"
      LogLevel.Fatal (by decide)).2 rfl⟩

end Spec2Proof
